import Mathlib

/-!
Shallow embedding of the `eieio` crate (`src/lib.rs`): a replacement of
`std::io::Error` implementing `Eq + Clone`.

Arc allocations are made explicit: a `Heap` holds the causal objects ever
allocated (indexed by allocation id) together with their share counts, and an
`ArcError` is a handle carrying the id of its allocation.  `Arc::ptr_eq`
becomes equality of allocation ids.
-/

namespace Eieio

/-- The external classification enumeration (`std::io::ErrorKind`), modelled
as a small closed enum containing the categories the spec names. -/
inductive ErrorKind where
  | notFound
  | permissionDenied
  | interrupted
  | brokenPipe
  | other
  | uncategorized
  deriving DecidableEq

/-- The content of a causal object (`dyn error::Error + Send + Sync`): its
human-readable description.  Content equality models byte-identity of the
wrapped object. -/
structure CausalObj where
  description : String
  deriving DecidableEq

/-- A handle to an `Arc` allocation: `ArcError(Arc<dyn error::Error + Send + Sync>)`.
The handle carries only the allocation id; the pointed-to object lives in the
`Heap`. -/
structure ArcError where
  id : Nat
  deriving DecidableEq

/-- The store of `Arc` allocations: `objs` is the object at each allocation id
(ids are indices), `counts` the share count of each allocation. -/
structure Heap where
  objs : List CausalObj
  counts : List Nat
  deriving DecidableEq

/-- `Arc::new` / `Box<dyn Error>::into()`: allocate a fresh cell holding `o`
with share count 1 and return its handle. -/
def Heap.alloc (h : Heap) (o : CausalObj) : ArcError × Heap :=
  (⟨h.objs.length⟩, ⟨h.objs ++ [o], h.counts ++ [1]⟩)

/-- `impl PartialEq for ArcError`: `Arc::ptr_eq(&self.0, &other.0)` — same
allocation, never content comparison. -/
def ArcError.eqv (a b : ArcError) : Bool :=
  decide (a.id = b.id)

/-- `Arc::clone` (via `#[derive(Clone)]` on `ArcError`): same handle, share
count of its allocation incremented; no object is duplicated. -/
def ArcError.clone (a : ArcError) (h : Heap) : ArcError × Heap :=
  (a, ⟨h.objs, h.counts.set a.id (h.counts.getD a.id 0 + 1)⟩)

/-- `enum Repr { Os(i32), Simple(io::ErrorKind), Custom(io::ErrorKind, ArcError) }` -/
inductive Repr where
  | Os (code : Int)
  | Simple (kind : ErrorKind)
  | Custom (kind : ErrorKind) (err : ArcError)

/-- `pub struct Error(Repr);` -/
structure Error where
  rep : Repr

/-- `#[derive(PartialEq)] enum Repr`: discriminants must match; `Os` compares
codes, `Simple` compares kinds, `Custom` compares the kind field and then the
`ArcError` field via its handle-identity `PartialEq`. -/
def Repr.eqv : Repr → Repr → Bool
  | .Os a, .Os b => decide (a = b)
  | .Simple k1, .Simple k2 => decide (k1 = k2)
  | .Custom k1 a1, .Custom k2 a2 => decide (k1 = k2) && a1.eqv a2
  | _, _ => false

/-- `#[derive(PartialEq)] struct Error(Repr)`: compare the wrapped `Repr`. -/
def Error.eqv (a b : Error) : Bool :=
  Repr.eqv a.rep b.rep

/-- `#[derive(Clone)]` on `Error`/`Repr`: `Os` and `Simple` are copied by
value (heap untouched); `Custom` clones the `ArcError`, incrementing the share
count of the same allocation. -/
def Error.clone (e : Error) (h : Heap) : Error × Heap :=
  match e.rep with
  | .Custom k a =>
    let p := a.clone h
    (⟨.Custom k p.1⟩, p.2)
  | r => (⟨r⟩, h)

/-- The argument of `Error::new`: any `E: Into<Arc<dyn error::Error + Send + Sync>>`.
A boxed / concrete error converts by allocating a fresh `Arc`; an `Arc` passed
directly converts by identity (no new allocation). -/
inductive IntoArc where
  | box (o : CausalObj)
  | arc (a : ArcError)

/-- `error.into()` for the two conversion shapes above. -/
def IntoArc.into : IntoArc → Heap → ArcError × Heap
  | .box o, h => h.alloc o
  | .arc a, h => (a, h)

/-- `Error::new(kind, error)`: `Self(Repr::Custom(kind, ArcError(error.into())))`. -/
def Error.new (kind : ErrorKind) (err : IntoArc) (h : Heap) : Error × Heap :=
  let p := err.into h
  (⟨.Custom kind p.1⟩, p.2)

/-- `Error::from_raw_os_error(code)`: `Self(Repr::Os(code))` — no lookup at
construction. -/
def Error.from_raw_os_error (code : Int) : Error :=
  ⟨.Os code⟩

/-- `impl From<io::ErrorKind> for Error`: `Self(Repr::Simple(kind))`. -/
def Error.fromKind (kind : ErrorKind) : Error :=
  ⟨.Simple kind⟩

/-- `Error::raw_os_error()`: the stored code for `Os`, absent otherwise. -/
def Error.raw_os_error : Error → Option Int
  | ⟨.Os os⟩ => some os
  | _ => none

/-- `Error::get_ref()`: `Some(&*err.0)` for `Custom` — a borrow of the object
behind the handle, modelled by the handle itself (the allocation it points
at) — `None` otherwise. -/
def Error.get_ref : Error → Option ArcError
  | ⟨.Custom _ a⟩ => some a
  | _ => none

/-- `Error::into_inner()`: the owned `Arc` for `Custom`, `None` otherwise. -/
def Error.into_inner : Error → Option ArcError
  | ⟨.Custom _ a⟩ => some a
  | _ => none

/-- Modelled from the spec: `sys::decode_error_kind`, the platform
classification lookup used by `io::Error::from_raw_os_error(code).kind()`,
which is external platform code not in this repository.  A known code maps to
the platform's documented classification (e.g. the "file or directory not
found" code 2 maps to "not found"); unknown codes are uncategorized. -/
def decode_error_kind (code : Int) : ErrorKind :=
  if code = 2 then .notFound
  else if code = 13 then .permissionDenied
  else if code = 4 then .interrupted
  else if code = 32 then .brokenPipe
  else .uncategorized

/-- `Error::kind()`: for `Os`, `io::Error::from_raw_os_error(*os).kind()` —
the platform lookup applied to the stored code on each call; for `Simple` and
`Custom` the stored kind. -/
def Error.kind : Error → ErrorKind
  | ⟨.Os os⟩ => decode_error_kind os
  | ⟨.Simple k⟩ => k
  | ⟨.Custom k _⟩ => k

/-- Modelled from the spec: the platform's code-to-message lookup used by
`io::Error::from_raw_os_error(os)`'s `Display`, external platform code not in
this repository.  Every code has a (non-empty) message. -/
def os_error_message (code : Int) : String :=
  if code = 2 then "No such file or directory (os error 2)"
  else if code = 13 then "Permission denied (os error 13)"
  else if code = 4 then "Interrupted system call (os error 4)"
  else if code = 32 then "Broken pipe (os error 32)"
  else "Unknown error (os error ?)"

/-- Modelled from the spec: the generic classification-derived description
used by `io::Error::from(kind)`'s `Display`, external `std` code not in this
repository. -/
def kind_message : ErrorKind → String
  | .notFound => "entity not found"
  | .permissionDenied => "permission denied"
  | .interrupted => "operation interrupted"
  | .brokenPipe => "broken pipe"
  | .other => "other error"
  | .uncategorized => "uncategorized error"

/-- `impl fmt::Display for Error`: `Os` formats via the platform
code-to-message lookup, `Simple` via the classification-derived message,
`Custom` delegates entirely to the wrapped object's own `Display` (its
description, read through the handle). -/
def Error.describe (h : Heap) : Error → String
  | ⟨.Os os⟩ => os_error_message os
  | ⟨.Simple k⟩ => kind_message k
  | ⟨.Custom _ a⟩ => (h.objs.getD a.id ⟨""⟩).description

/-- The external platform I/O error (`std::io::Error`) as consumed by
`From<io::Error>`: it may carry a raw platform code, always carries a
classification, and may carry a nested causal object (`into_inner`). -/
structure IoError where
  raw_os_error : Option Int
  kind : ErrorKind
  inner : Option CausalObj

/-- `impl From<io::Error> for Error`: if the input carries a raw platform
code, `Os(code)`; otherwise take its kind and, if it carries a nested causal
object, wrap that object in a fresh `Arc` giving `Custom(kind, handle)`, else
`Simple(kind)`. -/
def Error.fromIoError (e : IoError) (h : Heap) : Error × Heap :=
  match e.raw_os_error with
  | some os => (⟨.Os os⟩, h)
  | none =>
    match e.inner with
    | some inner =>
      let p := h.alloc inner
      (⟨.Custom e.kind p.1⟩, p.2)
    | none => (⟨.Simple e.kind⟩, h)

/-- Helper: the value component of `clone` is the original value itself (same
handle for `Custom`, same plain value otherwise). -/
theorem Error.clone_fst (e : Error) (h : Heap) : (Error.clone e h).1 = e := by
  obtain ⟨r⟩ := e
  cases r <;> rfl

/-- Helper: `eqv` is reflexive. -/
theorem Error.eqv_refl (e : Error) : Error.eqv e e = true := by
  obtain ⟨r⟩ := e
  cases r <;> simp [Error.eqv, Repr.eqv, ArcError.eqv]

/-- C1: two independent `Error::new` constructions from separately allocated
boxed causal objects with identical content are unequal (handle identity, not
content); a clone of the first equals the first and stays unequal to the
second. -/
theorem new_box_identity_semantics (h : Heap) (k : ErrorKind) (o : CausalObj) :
    Error.eqv (Error.new k (.box o) h).1
      (Error.new k (.box o) (Error.new k (.box o) h).2).1 = false
  ∧ Error.eqv (Error.clone (Error.new k (.box o) h).1
        (Error.new k (.box o) (Error.new k (.box o) h).2).2).1
      (Error.new k (.box o) h).1 = true
  ∧ Error.eqv (Error.clone (Error.new k (.box o) h).1
        (Error.new k (.box o) (Error.new k (.box o) h).2).2).1
      (Error.new k (.box o) (Error.new k (.box o) h).2).1 = false := by
  have key : Error.eqv (Error.new k (.box o) h).1
      (Error.new k (.box o) (Error.new k (.box o) h).2).1 = false := by
    simp [Error.new, IntoArc.into, Heap.alloc, Error.eqv, Repr.eqv, ArcError.eqv]
  refine ⟨key, ?_, ?_⟩
  · rw [Error.clone_fst]
    exact Error.eqv_refl _
  · rw [Error.clone_fst]
    exact key

/-- C2: for every value, clone returns the value itself (so `clone(e) == e`),
never duplicates any causal object (the object store is unchanged), and for
`Custom` only the share count of the original's allocation is incremented,
while `Os`/`Simple` leave the heap untouched. -/
theorem clone_spec (e : Error) (h : Heap) :
    (Error.clone e h).1 = e
  ∧ Error.eqv (Error.clone e h).1 e = true
  ∧ ((Error.clone e h).2).objs = h.objs
  ∧ ((Error.clone e h).2).counts =
      (match e.rep with
       | Repr.Custom _ a => h.counts.set a.id (h.counts.getD a.id 0 + 1)
       | _ => h.counts) := by
  refine ⟨Error.clone_fst e h, ?_, ?_, ?_⟩
  · rw [Error.clone_fst]
    exact Error.eqv_refl e
  · obtain ⟨r⟩ := e
    cases r <;> rfl
  · obtain ⟨r⟩ := e
    cases r <;> rfl

/-- C3: `From<io::Error>` performs exactly the specified case analysis (raw
code → `Os`; else kind, and nested causal object → `Custom` with a fresh
allocation, none → `Simple`); a freshly allocated handle is identity-unequal
to every handle already allocated in the heap. -/
theorem from_io_error_spec (e : IoError) (h : Heap) :
    (Error.fromIoError e h =
      match e.raw_os_error, e.inner with
      | some os, _ => (Error.mk (Repr.Os os), h)
      | none, some o => (Error.mk (Repr.Custom e.kind (h.alloc o).1), (h.alloc o).2)
      | none, none => (Error.mk (Repr.Simple e.kind), h))
  ∧ ∀ (a : ArcError) (o : CausalObj), a.id < h.objs.length →
      ArcError.eqv (h.alloc o).1 a = false := by
  constructor
  · obtain ⟨ro, k, inn⟩ := e
    cases ro <;> cases inn <;> rfl
  · intro a o ha
    simp [Heap.alloc, ArcError.eqv]
    omega

/-- C3 witness: a concrete `From<io::Error>` conversion allocating a fresh
handle unequal to the pre-existing handle 0. -/
theorem from_io_error_spec_witness :
    ArcError.eqv ((Heap.mk [⟨"y"⟩] [1]).alloc ⟨"x"⟩).1 ⟨0⟩ = false :=
  (from_io_error_spec ⟨none, ErrorKind.other, some ⟨"x"⟩⟩ ⟨[⟨"y"⟩], [1]⟩).2
    ⟨0⟩ ⟨"x"⟩ (by decide)

/-- C4 counterexample: two `Custom` values over the same allocation (handle 0)
but different classification fields compare unequal — the derived `PartialEq`
on `Repr` compares the kind field too, so equality is not handle identity
alone. -/
theorem custom_eq_kind_counterexample :
    (Error.new ErrorKind.notFound (IntoArc.arc ⟨0⟩) ⟨[⟨"foo"⟩], [1]⟩).1.get_ref = some ⟨0⟩
  ∧ (Error.new ErrorKind.other (IntoArc.arc ⟨0⟩) ⟨[⟨"foo"⟩], [1]⟩).1.get_ref = some ⟨0⟩
  ∧ ArcError.eqv ⟨0⟩ ⟨0⟩ = true
  ∧ Error.eqv (Error.new ErrorKind.notFound (IntoArc.arc ⟨0⟩) ⟨[⟨"foo"⟩], [1]⟩).1
      (Error.new ErrorKind.other (IntoArc.arc ⟨0⟩) ⟨[⟨"foo"⟩], [1]⟩).1 = false := by
  refine ⟨rfl, rfl, rfl, by decide⟩

/-- C4 amended: equality of two `Custom` values holds iff both the
classification fields are equal and the handles refer to the same allocation;
with equal classifications, handle identity alone decides. -/
theorem custom_eq_spec (k1 k2 : ErrorKind) (a1 a2 : ArcError) :
    Error.eqv ⟨.Custom k1 a1⟩ ⟨.Custom k2 a2⟩ = true ↔ k1 = k2 ∧ a1.id = a2.id := by
  simp [Error.eqv, Repr.eqv, ArcError.eqv]

/-- C4 amended witness. -/
theorem custom_eq_spec_witness :
    Error.eqv ⟨.Custom ErrorKind.other ⟨5⟩⟩ ⟨.Custom ErrorKind.other ⟨5⟩⟩ = true :=
  (custom_eq_spec ErrorKind.other ErrorKind.other ⟨5⟩ ⟨5⟩).mpr ⟨rfl, rfl⟩

/-- C5: `Os` and `Simple` values with equal stored fields, constructed
independently, compare equal; being fully determined by their stored fields
they are identical values, so every (deterministic) hash function agrees on
them. -/
theorem structural_eq_spec (c1 c2 : Int) (k1 k2 : ErrorKind)
    (hc : c1 = c2) (hk : k1 = k2) :
    Error.eqv (Error.from_raw_os_error c1) (Error.from_raw_os_error c2) = true
  ∧ Error.eqv (Error.fromKind k1) (Error.fromKind k2) = true
  ∧ ∀ hashF : Error → Nat,
      hashF (Error.from_raw_os_error c1) = hashF (Error.from_raw_os_error c2)
      ∧ hashF (Error.fromKind k1) = hashF (Error.fromKind k2) := by
  subst hc
  subst hk
  exact ⟨Error.eqv_refl _, Error.eqv_refl _, fun f => ⟨rfl, rfl⟩⟩

/-- C5 witness. -/
theorem structural_eq_spec_witness :
    Error.eqv (Error.from_raw_os_error 7) (Error.from_raw_os_error 7) = true :=
  (structural_eq_spec 7 7 ErrorKind.notFound ErrorKind.notFound rfl rfl).1

/-- C6: `kind()` for `Os` is the platform lookup applied to the stored code
(the representation stores only the code, no classification is cached at
construction); a known platform code (2, "file or directory not found") maps
to the "not found" classification; `Simple`/`Custom` return the stored kind. -/
theorem kind_spec (c : Int) (k : ErrorKind) (a : ArcError) :
    (Error.from_raw_os_error c).rep = Repr.Os c
  ∧ (Error.from_raw_os_error c).kind = decode_error_kind c
  ∧ (Error.from_raw_os_error 2).kind = ErrorKind.notFound
  ∧ (Error.fromKind k).kind = k
  ∧ (Error.mk (Repr.Custom k a)).kind = k :=
  ⟨rfl, rfl, by decide, rfl, rfl⟩

/-- C7: the causal object is reachable exactly on `Custom`: `get_ref` is
`none` for `Os`/`Simple` and a present reference for every `Custom`;
`into_inner` yields the owned handle on `Custom` (identity-equal to the handle
`get_ref` borrows through) and `none` otherwise. -/
theorem causal_access_spec (c : Int) (k : ErrorKind) (a : ArcError) :
    (Error.from_raw_os_error c).get_ref = none
  ∧ (Error.fromKind k).get_ref = none
  ∧ (Error.mk (Repr.Custom k a)).get_ref = some a
  ∧ ((Error.mk (Repr.Custom k a)).get_ref).isSome = true
  ∧ (Error.from_raw_os_error c).into_inner = none
  ∧ (Error.fromKind k).into_inner = none
  ∧ (Error.mk (Repr.Custom k a)).into_inner = some a
  ∧ ArcError.eqv a a = true :=
  ⟨rfl, rfl, rfl, rfl, rfl, rfl, rfl, by simp [ArcError.eqv]⟩

/-- C8: the raw code stored by `from_raw_os_error` is returned unchanged by
`raw_os_error` for every 32-bit signed integer code. -/
theorem raw_os_error_roundtrip (c : Int)
    (hlo : -2147483648 ≤ c) (hhi : c < 2147483648) :
    (Error.from_raw_os_error c).raw_os_error = some c := rfl

/-- C8 witness. -/
theorem raw_os_error_roundtrip_witness :
    (Error.from_raw_os_error (-42)).raw_os_error = some (-42) :=
  raw_os_error_roundtrip (-42) (by decide) (by decide)

/-- C9 counterexample: a `Custom` value wrapping an object whose own
description is empty formats to the empty string — `Display` delegates
entirely to the wrapped object, so the description is not always non-empty. -/
theorem describe_nonempty_counterexample :
    (Error.describe (Error.new ErrorKind.other (IntoArc.box ⟨""⟩) ⟨[], []⟩).2
      (Error.new ErrorKind.other (IntoArc.box ⟨""⟩) ⟨[], []⟩).1).length = 0 := by
  rfl

/-- C9 amended: formatting always succeeds (total); `Os` formats via the
platform code-to-message lookup and `Simple` via the classification-derived
message, both non-empty; `Custom` delegates entirely to the wrapped object's
own description (so it is non-empty exactly when that description is). -/
theorem describe_spec (h : Heap) (c : Int) (k : ErrorKind) (a : ArcError) :
    Error.describe h (Error.mk (Repr.Os c)) = os_error_message c
  ∧ 0 < (os_error_message c).length
  ∧ Error.describe h (Error.mk (Repr.Simple k)) = kind_message k
  ∧ 0 < (kind_message k).length
  ∧ Error.describe h (Error.mk (Repr.Custom k a)) =
      (h.objs.getD a.id ⟨""⟩).description := by
  refine ⟨rfl, ?_, rfl, ?_, rfl⟩
  · unfold os_error_message
    split_ifs <;> decide
  · cases k <;> decide

/-- C10: `Error::new` does not always allocate: passing an already-shared
`Arc` handle (the `Into` identity conversion) to two separate `Error::new`
calls with the same kind yields two values over the same allocation — the
heap gains no object and the two values compare equal. -/
theorem new_shared_arc_spec (h : Heap) (k : ErrorKind) (a : ArcError) :
    Error.eqv (Error.new k (.arc a) h).1
      (Error.new k (.arc a) (Error.new k (.arc a) h).2).1 = true
  ∧ ((Error.new k (.arc a) h).2) = h
  ∧ (Error.new k (.arc a) h).1.get_ref = some a
  ∧ (Error.new k (.arc a) (Error.new k (.arc a) h).2).1.get_ref = some a := by
  exact ⟨Error.eqv_refl _, rfl, rfl, rfl⟩

end Eieio
